import Mathlib

/-
Verification of the unifi-mcp controller client, action routing, parameter
validation, and monitoring/client services, as a shallow embedding of the
Python sources (src/unifi_mcp).  Machine strings are modelled by Lean String
and List Char; Python dict/JSON values by an inductive Json type; the HTTP
layer by explicit oracles describing what each network call would return;
Python exceptions escaping a function by an Except.error result.
-/

/-- Json values, modelling the Python-level JSON objects the client handles.
Python dicts are association lists (key lookup finds the first match;
the dicts produced by json parsing have unique keys). -/
inductive Json where
  | null
  | bool (b : Bool)
  | num (n : Int)
  | str (s : String)
  | arr (xs : List Json)
  | obj (kvs : List (String × Json))

/-- Key lookup on a Json value: some value when the Json is an object with
the key present, none otherwise.  Models the Python expressions
(isinstance(x, dict) and k in x) together with x[k]. -/
def Json.getKey : Json → String → Option Json
  | .obj kvs, k => kvs.lookup k
  | _, _ => none

/-- Whether a Json value is a dict containing the given key. -/
def Json.hasKey (j : Json) (k : String) : Bool :=
  (j.getKey k).isSome

/-- The error payload dict produced by the client, Python:
a dict with the single entry error -> message. -/
def errorDict (msg : String) : Json :=
  Json.obj [("error", Json.str msg)]

/-- Envelope unwrapping after a successful request, client.py lines 192-196:
if the parsed body is a dict containing a data key, return that value,
otherwise return the body unchanged. -/
def unwrapEnvelope (j : Json) : Json :=
  match j.getKey "data" with
  | some v => v
  | none => j

/-- The configuration fields of UniFiConfig that the client reads
(config.py / client.py). -/
structure UniFiConfig where
  controller_url : String
  username : String
  password : String
  verify_ssl : Bool
  is_udm_pro : Bool
deriving DecidableEq, Repr

/-- client.py line 34: api_base is /proxy/network/api for UDM Pro style
controllers and /api for legacy controllers. -/
def api_base (cfg : UniFiConfig) : String :=
  if cfg.is_udm_pro then "/proxy/network/api" else "/api"

/-- The mutable per-session state of UnifiControllerClient.  The field
session is true when self.session is not None. -/
structure ClientState where
  session : Bool
  is_authenticated : Bool
  csrf_token : Option String
deriving DecidableEq, Repr

/-- How the body of an HTTP POST is encoded by httpx: the json= keyword
produces a JSON body, the data= keyword a form-encoded body. -/
inductive BodyEncoding where
  | jsonBody
  | formBody
deriving DecidableEq, Repr

/-- The login request that authenticate() builds and posts,
client.py lines 68-86.  Both branches call session.post(login_url,
json=login_data), so both carry a JSON body. -/
structure LoginRequest where
  url : String
  payload : List (String × Json)
  encoding : BodyEncoding

/-- client.py lines 70-86: the login URL and payload depend on the mode;
the post uses the json= keyword in both modes. -/
def login_request (cfg : UniFiConfig) : LoginRequest :=
  if cfg.is_udm_pro then
    { url := cfg.controller_url ++ "/api/auth/login"
      payload := [("username", Json.str cfg.username),
                  ("password", Json.str cfg.password)]
      encoding := BodyEncoding.jsonBody }
  else
    { url := cfg.controller_url ++ api_base cfg ++ "/login"
      payload := [("username", Json.str cfg.username),
                  ("password", Json.str cfg.password),
                  ("remember", Json.bool true)]
      encoding := BodyEncoding.jsonBody }

/-- Oracle describing what the network does during one authenticate() call:
the login POST either raises a transport exception (with message) or
returns a status code; and, when the login succeeded in UDM Pro mode,
whether the TOKEN cookie was present and decodable, and which csrfToken
value the decoded JWT carried (some (some t): decoded, csrfToken t;
some none: decoded, no csrfToken field; none: no cookie or decode failed,
csrf_token left unchanged). -/
structure AuthOracle where
  postResult : Except String Nat
  csrfUpdate : Option (Option String)

/-- The message of the RuntimeError raised by authenticate() when no
session exists, client.py line 66. -/
def sessionErrMsg : String := "Session not initialized. Call connect() first."

/-- Embedding of authenticate(), client.py lines 63-117.  Returns
Except.error msg when a Python exception escapes to the caller (only the
RuntimeError of line 66 can), and otherwise the returned Bool together
with the updated client state.  A transport exception or a non-200 login
status is caught or handled and yields false with the state unchanged;
on a 200 response the csrf token is updated from the JWT in UDM Pro mode
(decode failure tolerated) and is_authenticated becomes true. -/
def authenticate (cfg : UniFiConfig) (st : ClientState) (o : AuthOracle) :
    Except String (Bool × ClientState) :=
  if ¬ st.session then Except.error sessionErrMsg
  else
    match o.postResult with
    | Except.error _ => Except.ok (false, st)
    | Except.ok status =>
      if status ≠ 200 then Except.ok (false, st)
      else
        let st1 :=
          if cfg.is_udm_pro then
            match o.csrfUpdate with
            | some v => { st with csrf_token := v }
            | none => st
          else st
        Except.ok (true, { st1 with is_authenticated := true })

/-- One HTTP response as seen by _make_request: a status code and the
result of calling .json() on it (which may raise a parse exception). -/
structure HttpResp where
  status : Nat
  body : Except String Json

/-- Oracle for one _make_request call: the authenticate oracle used if
ensure_authenticated needs to log in, the first request outcome
(transport exception or response), the authenticate oracle for the
401-triggered re-login, and the retry request outcome. -/
structure RequestOracle where
  ensureAuth : AuthOracle
  first : Except String HttpResp
  retryAuth : AuthOracle
  retry : Except String HttpResp

/-- The data of one issued HTTP request (method, URL, JSON body, query
parameters, headers), as passed to session.request. -/
structure HttpCall where
  method : String
  url : String
  body : Option Json
  query : Option (List (String × Json))
  headers : List (String × String)

/-- Observable events of one _make_request call: calls to authenticate()
and HTTP requests issued to the endpoint. -/
inductive Event where
  | authCall
  | httpRequest (c : HttpCall)

/-- URL construction, client.py lines 139-144. -/
def build_url (cfg : UniFiConfig) (site_name endpoint : String) : String :=
  if site_name = "" then cfg.controller_url ++ api_base cfg ++ endpoint
  else cfg.controller_url ++ api_base cfg ++ "/s/" ++ site_name ++ endpoint

/-- Python truthiness of the optional csrf token string (None and the
empty string are falsy). -/
def csrfTruthy : Option String → Bool
  | some t => t ≠ ""
  | none => false

/-- Header construction, client.py lines 146-153: Content-Type always;
X-CSRF-Token added only in UDM Pro mode when a truthy token is held. -/
def build_headers (cfg : UniFiConfig) (tok : Option String) :
    List (String × String) :=
  if cfg.is_udm_pro ∧ csrfTruthy tok then
    [("Content-Type", "application/json"), ("X-CSRF-Token", tok.getD "")]
  else
    [("Content-Type", "application/json")]

/-- The outcome of one _make_request call: the value returned to the
caller (Except.error msg when a Python exception escapes), the final
client state, and the trace of observable events. -/
structure RequestOutcome where
  result : Except String Json
  state : ClientState
  events : List Event


/-- Embedding of the body of _make_request from the session check onward,
client.py lines 135-200, for a given post-ensure_authenticated state st1:
the line 135-136 session check (RuntimeError raised outside the try
block), URL and header construction, then the try block: issue the
request; on 401 set is_authenticated to false, call authenticate() and
retry the identical request once (same method, url, data, params and the
headers variable built before the re-authentication), a non-200 retry
yielding the status error dict; any other non-200 status yields the
status error dict at once with no retry; a 200 body is json-parsed and
envelope-unwrapped; every exception raised inside the try block is
caught and returned as an error dict. -/
def request_attempt (cfg : UniFiConfig) (st1 : ClientState)
    (method endpoint site_name : String)
    (data : Option Json) (params : Option (List (String × Json)))
    (first : Except String HttpResp) (retryAuth : AuthOracle)
    (retry : Except String HttpResp) : RequestOutcome :=
  if ¬ st1.session then
    { result := Except.error "Session not initialized", state := st1, events := [] }
  else
    let url := build_url cfg site_name endpoint
    let headers := build_headers cfg st1.csrf_token
    let call1 : HttpCall :=
      { method := method, url := url, body := data, query := params,
        headers := headers }
    match first with
    | Except.error e =>
      { result := Except.ok (errorDict e), state := st1,
        events := [Event.httpRequest call1] }
    | Except.ok resp =>
      if resp.status = 401 then
        -- client.py lines 166-184
        let st2 := { st1 with is_authenticated := false }
        match authenticate cfg st2 retryAuth with
        | Except.error e =>
          -- a RuntimeError here is inside the try block, hence caught
          { result := Except.ok (errorDict e), state := st2,
            events := [Event.httpRequest call1, Event.authCall] }
        | Except.ok (_, st3) =>
          -- retry with the same method, url, data, params and the
          -- headers variable built before the re-authentication
          let call2 : HttpCall :=
            { method := method, url := url, body := data, query := params,
              headers := headers }
          let evs2 := [Event.httpRequest call1, Event.authCall,
                       Event.httpRequest call2]
          match retry with
          | Except.error e =>
            { result := Except.ok (errorDict e), state := st3, events := evs2 }
          | Except.ok r2 =>
            if r2.status ≠ 200 then
              { result := Except.ok (errorDict
                  ("Request failed with status " ++ toString r2.status)),
                state := st3, events := evs2 }
            else
              match r2.body with
              | Except.error e =>
                { result := Except.ok (errorDict e), state := st3, events := evs2 }
              | Except.ok j =>
                { result := Except.ok (unwrapEnvelope j), state := st3, events := evs2 }
      else
        let evs1 := [Event.httpRequest call1]
        if resp.status ≠ 200 then
          { result := Except.ok (errorDict
              ("Request failed with status " ++ toString resp.status)),
            state := st1, events := evs1 }
        else
          match resp.body with
          | Except.error e =>
            { result := Except.ok (errorDict e), state := st1, events := evs1 }
          | Except.ok j =>
            { result := Except.ok (unwrapEnvelope j), state := st1, events := evs1 }

/-- Embedding of _make_request, client.py lines 124-200: first
ensure_authenticated (client.py lines 119-122 and 133; the RuntimeError
of authenticate() propagates to the caller since it is raised before the
try block), then the request attempt. -/
def make_request (cfg : UniFiConfig) (st : ClientState)
    (method endpoint : String) (site_name : String)
    (data : Option Json) (params : Option (List (String × Json)))
    (o : RequestOracle) : RequestOutcome :=
  let ensured : Except String (ClientState × List Event) :=
    if st.is_authenticated then Except.ok (st, [])
    else
      match authenticate cfg st o.ensureAuth with
      | Except.error e => Except.error e
      | Except.ok (_, st1) => Except.ok (st1, [Event.authCall])
  match ensured with
  | Except.error e =>
    { result := Except.error e, state := st, events := [Event.authCall] }
  | Except.ok (st1, evs) =>
    let out := request_attempt cfg st1 method endpoint site_name data params
      o.first o.retryAuth o.retry
    { out with events := evs ++ out.events }

/-- The value _make_request returns to its caller as a function of the
two endpoint response outcomes alone, valid whenever a session exists
(the returned value never depends on the client state or on what the
authenticate calls do). -/
def request_result (first retry : Except String HttpResp) : Json :=
  match first with
  | Except.error e => errorDict e
  | Except.ok resp =>
    if resp.status = 401 then
      match retry with
      | Except.error e => errorDict e
      | Except.ok r2 =>
        if r2.status ≠ 200 then
          errorDict ("Request failed with status " ++ toString r2.status)
        else
          match r2.body with
          | Except.error e => errorDict e
          | Except.ok j => unwrapEnvelope j
    else if resp.status ≠ 200 then
      errorDict ("Request failed with status " ++ toString resp.status)
    else
      match resp.body with
      | Except.error e => errorDict e
      | Except.ok j => unwrapEnvelope j

/-- The UnifiAction enumeration, models/enums.py lines 10-55: every
member of the Python enum, in source order. -/
inductive UnifiAction where
  | GET_DEVICES
  | GET_DEVICE_BY_MAC
  | RESTART_DEVICE
  | LOCATE_DEVICE
  | GET_CLIENTS
  | RECONNECT_CLIENT
  | BLOCK_CLIENT
  | UNBLOCK_CLIENT
  | FORGET_CLIENT
  | SET_CLIENT_NAME
  | SET_CLIENT_NOTE
  | GET_SITES
  | GET_WLAN_CONFIGS
  | GET_NETWORK_CONFIGS
  | GET_PORT_CONFIGS
  | GET_PORT_FORWARDING_RULES
  | GET_FIREWALL_RULES
  | GET_FIREWALL_GROUPS
  | GET_STATIC_ROUTES
  | GET_CONTROLLER_STATUS
  | GET_EVENTS
  | GET_ALARMS
  | GET_DPI_STATS
  | GET_ROGUE_APS
  | START_SPECTRUM_SCAN
  | GET_SPECTRUM_SCAN_STATE
  | AUTHORIZE_GUEST
  | GET_SPEEDTEST_RESULTS
  | GET_IPS_EVENTS
  | GET_USER_INFO
deriving DecidableEq, Repr, Fintype

/-- The string value of each enum member, models/enums.py. -/
def actionStr : UnifiAction → String
  | .GET_DEVICES => "get_devices"
  | .GET_DEVICE_BY_MAC => "get_device_by_mac"
  | .RESTART_DEVICE => "restart_device"
  | .LOCATE_DEVICE => "locate_device"
  | .GET_CLIENTS => "get_clients"
  | .RECONNECT_CLIENT => "reconnect_client"
  | .BLOCK_CLIENT => "block_client"
  | .UNBLOCK_CLIENT => "unblock_client"
  | .FORGET_CLIENT => "forget_client"
  | .SET_CLIENT_NAME => "set_client_name"
  | .SET_CLIENT_NOTE => "set_client_note"
  | .GET_SITES => "get_sites"
  | .GET_WLAN_CONFIGS => "get_wlan_configs"
  | .GET_NETWORK_CONFIGS => "get_network_configs"
  | .GET_PORT_CONFIGS => "get_port_configs"
  | .GET_PORT_FORWARDING_RULES => "get_port_forwarding_rules"
  | .GET_FIREWALL_RULES => "get_firewall_rules"
  | .GET_FIREWALL_GROUPS => "get_firewall_groups"
  | .GET_STATIC_ROUTES => "get_static_routes"
  | .GET_CONTROLLER_STATUS => "get_controller_status"
  | .GET_EVENTS => "get_events"
  | .GET_ALARMS => "get_alarms"
  | .GET_DPI_STATS => "get_dpi_stats"
  | .GET_ROGUE_APS => "get_rogue_aps"
  | .START_SPECTRUM_SCAN => "start_spectrum_scan"
  | .GET_SPECTRUM_SCAN_STATE => "get_spectrum_scan_state"
  | .AUTHORIZE_GUEST => "authorize_guest"
  | .GET_SPEEDTEST_RESULTS => "get_speedtest_results"
  | .GET_IPS_EVENTS => "get_ips_events"
  | .GET_USER_INFO => "get_user_info"

/-- All members of the enum in source order. -/
def allActions : List UnifiAction :=
  [.GET_DEVICES, .GET_DEVICE_BY_MAC, .RESTART_DEVICE, .LOCATE_DEVICE,
   .GET_CLIENTS, .RECONNECT_CLIENT, .BLOCK_CLIENT, .UNBLOCK_CLIENT,
   .FORGET_CLIENT, .SET_CLIENT_NAME, .SET_CLIENT_NOTE,
   .GET_SITES, .GET_WLAN_CONFIGS, .GET_NETWORK_CONFIGS, .GET_PORT_CONFIGS,
   .GET_PORT_FORWARDING_RULES, .GET_FIREWALL_RULES, .GET_FIREWALL_GROUPS,
   .GET_STATIC_ROUTES,
   .GET_CONTROLLER_STATUS, .GET_EVENTS, .GET_ALARMS, .GET_DPI_STATS,
   .GET_ROGUE_APS, .START_SPECTRUM_SCAN, .GET_SPECTRUM_SCAN_STATE,
   .AUTHORIZE_GUEST, .GET_SPEEDTEST_RESULTS, .GET_IPS_EVENTS,
   .GET_USER_INFO]

/-- DEVICE_ACTIONS, models/enums.py lines 59-64. -/
def DEVICE_ACTIONS : List UnifiAction :=
  [.GET_DEVICES, .GET_DEVICE_BY_MAC, .RESTART_DEVICE, .LOCATE_DEVICE]

/-- CLIENT_ACTIONS, models/enums.py lines 66-74. -/
def CLIENT_ACTIONS : List UnifiAction :=
  [.GET_CLIENTS, .RECONNECT_CLIENT, .BLOCK_CLIENT, .UNBLOCK_CLIENT,
   .FORGET_CLIENT, .SET_CLIENT_NAME, .SET_CLIENT_NOTE]

/-- NETWORK_ACTIONS, models/enums.py lines 76-85. -/
def NETWORK_ACTIONS : List UnifiAction :=
  [.GET_SITES, .GET_WLAN_CONFIGS, .GET_NETWORK_CONFIGS, .GET_PORT_CONFIGS,
   .GET_PORT_FORWARDING_RULES, .GET_FIREWALL_RULES, .GET_FIREWALL_GROUPS,
   .GET_STATIC_ROUTES]

/-- MONITORING_ACTIONS, models/enums.py lines 87-98. -/
def MONITORING_ACTIONS : List UnifiAction :=
  [.GET_CONTROLLER_STATUS, .GET_EVENTS, .GET_ALARMS, .GET_DPI_STATS,
   .GET_ROGUE_APS, .START_SPECTRUM_SCAN, .GET_SPECTRUM_SCAN_STATE,
   .AUTHORIZE_GUEST, .GET_SPEEDTEST_RESULTS, .GET_IPS_EVENTS]

/-- AUTH_ACTIONS, models/enums.py lines 100-102. -/
def AUTH_ACTIONS : List UnifiAction :=
  [.GET_USER_INFO]

/-- MAC_REQUIRED_ACTIONS, models/enums.py lines 105-118. -/
def MAC_REQUIRED_ACTIONS : List UnifiAction :=
  [.GET_DEVICE_BY_MAC, .RESTART_DEVICE, .LOCATE_DEVICE, .RECONNECT_CLIENT,
   .BLOCK_CLIENT, .UNBLOCK_CLIENT, .FORGET_CLIENT, .SET_CLIENT_NAME,
   .SET_CLIENT_NOTE, .START_SPECTRUM_SCAN, .GET_SPECTRUM_SCAN_STATE,
   .AUTHORIZE_GUEST]

/-- NO_SITE_ACTIONS, models/enums.py lines 121-125. -/
def NO_SITE_ACTIONS : List UnifiAction :=
  [.GET_SITES, .GET_CONTROLLER_STATUS, .GET_USER_INFO]

/-- Which component of the coordinator handles an action. -/
inductive Handler where
  | device
  | clnt
  | network
  | monitoring
  | auth
  | unknownAction
deriving DecidableEq, Repr

/-- The routing chain of UnifiService.execute_action, services/unifi_service.py
lines 60-75: membership tests against the five sets in order, with a
final unknown-action error branch. -/
def route (a : UnifiAction) : Handler :=
  if a ∈ DEVICE_ACTIONS then Handler.device
  else if a ∈ CLIENT_ACTIONS then Handler.clnt
  else if a ∈ NETWORK_ACTIONS then Handler.network
  else if a ∈ MONITORING_ACTIONS then Handler.monitoring
  else if a ∈ AUTH_ACTIONS then Handler.auth
  else Handler.unknownAction

/-- In how many of the five membership sets an action appears. -/
def membershipCount (a : UnifiAction) : Nat :=
  (if a ∈ DEVICE_ACTIONS then 1 else 0) +
  (if a ∈ CLIENT_ACTIONS then 1 else 0) +
  (if a ∈ NETWORK_ACTIONS then 1 else 0) +
  (if a ∈ MONITORING_ACTIONS then 1 else 0) +
  (if a ∈ AUTH_ACTIONS then 1 else 0)

deriving instance DecidableEq for Except

/-- The fields of UnifiParams, models/params.py lines 13-88, before
validation.  Optional numeric fields are Python ints. -/
structure UnifiParams where
  action : UnifiAction
  site_name : String := "default"
  mac : Option String := none
  limit : Option Int := none
  connected_only : Option Bool := none
  active_only : Option Bool := none
  by_filter : Option String := none
  name : Option String := none
  note : Option String := none
  minutes : Option Int := none
  up_bandwidth : Option Int := none
  down_bandwidth : Option Int := none
  quota : Option Int := none
deriving DecidableEq, Repr

/-- Python truthiness of an optional string: None and the empty string
are falsy (models the test in params.py line 127, if not self.mac). -/
def optStrFalsy : Option String → Bool
  | none => true
  | some s => s = ""

/-- Whether an optional int is present and not strictly positive. -/
def optIntNonPositive : Option Int → Bool
  | some v => v ≤ 0
  | none => false

/-- Whether an optional int is present and negative. -/
def optIntNegative : Option Int → Bool
  | some v => v < 0
  | none => false

/-- Whether an optional by_filter string is present and not one of the
two admissible values by_app and by_cat. -/
def byFilterInvalid : Option String → Bool
  | some v => v ≠ "by_app" && v ≠ "by_cat"
  | none => false

/-- The model validator validate_action_requirements, params.py lines
122-150: the MAC requirement check (first), then the name, note,
by_filter and minutes checks, in source order. -/
def validate_action_requirements (p : UnifiParams) : Except String UnifiParams :=
  if p.action ∈ MAC_REQUIRED_ACTIONS ∧ optStrFalsy p.mac then
    Except.error ("MAC address is required for action: " ++ actionStr p.action)
  else if p.action = UnifiAction.SET_CLIENT_NAME ∧ p.name = none then
    Except.error "name parameter is required for set_client_name action"
  else if p.action = UnifiAction.SET_CLIENT_NOTE ∧ p.note = none then
    Except.error "note parameter is required for set_client_note action"
  else if p.action = UnifiAction.GET_DPI_STATS ∧ byFilterInvalid p.by_filter then
    Except.error "by_filter must be by_app or by_cat for get_dpi_stats action"
  else if p.action = UnifiAction.AUTHORIZE_GUEST ∧ optIntNonPositive p.minutes then
    Except.error "minutes must be positive for authorize_guest action"
  else
    Except.ok p

/-- Constructing a UnifiParams instance, params.py: the pydantic field
validators (limit and minutes strictly positive when present, by_filter
restricted to by_app and by_cat, bandwidth and quota non-negative, lines
90-120) run first, then the model validator.  An Except.error result
models a construction-time ValidationError, raised before any network
activity. -/
def mk_unifi_params (p : UnifiParams) : Except String UnifiParams :=
  if optIntNonPositive p.limit then
    Except.error "limit must be positive"
  else if byFilterInvalid p.by_filter then
    Except.error "by_filter must be by_app or by_cat"
  else if optIntNonPositive p.minutes then
    Except.error "minutes must be positive"
  else if optIntNegative p.up_bandwidth then
    Except.error "bandwidth and quota values must be non-negative"
  else if optIntNegative p.down_bandwidth then
    Except.error "bandwidth and quota values must be non-negative"
  else if optIntNegative p.quota then
    Except.error "bandwidth and quota values must be non-negative"
  else
    validate_action_requirements p

/-- Per-action default limit, params.py lines 165-172 (get_action_defaults). -/
def action_default_limit : UnifiAction → Option Int
  | .GET_EVENTS => some 100
  | .GET_ROGUE_APS => some 20
  | .GET_SPEEDTEST_RESULTS => some 20
  | .GET_IPS_EVENTS => some 50
  | _ => none

/-- Per-action default connected_only, params.py lines 157-158: only
get_clients has one, and it is true. -/
def action_default_connected_only : UnifiAction → Option Bool
  | .GET_CLIENTS => some true
  | _ => none

/-- The default whitespace characters stripped by the Python str.strip
method (space, tab, newline, carriage return, vertical tab, form feed;
the MAC inputs at issue are ASCII). -/
def pyIsSpace (c : Char) : Bool :=
  c = ' ' || c = Char.ofNat 9 || c = Char.ofNat 10 || c = Char.ofNat 13 ||
  c = Char.ofNat 11 || c = Char.ofNat 12

/-- Python str.strip(): drop whitespace from both ends. -/
def pyStrip (s : List Char) : List Char :=
  ((s.dropWhile pyIsSpace).reverse.dropWhile pyIsSpace).reverse

/-- Python str.lower() on the ASCII range: map the uppercase letters to
their lowercase counterparts, leave everything else unchanged. -/
def pyLower (c : Char) : Char :=
  if 'A' ≤ c ∧ c ≤ 'Z' then Char.ofNat (c.toNat + 32) else c

/-- Python str.replace with single-character arguments. -/
def replaceChar (a b : Char) (s : List Char) : List Char :=
  s.map fun c => if c = a then b else c

/-- Embedding of normalize_mac (services/base.py line 47 and server.py
lines 31-32, both identical): strip, lowercase, then replace the dash
and dot separators by colons.  Strings are modelled as character lists. -/
def normalize_mac (s : List Char) : List Char :=
  replaceChar '.' ':' (replaceChar '-' ':' ((pyStrip s).map pyLower))

/-- Tokens of a MAC address string: a hex digit with a value, or a
separator position. -/
inductive MacTok where
  | digit (n : Fin 16)
  | sep
deriving DecidableEq, Repr

/-- The lowercase character of a hex digit (0-9, a-f). -/
def hexLowerChar (n : Fin 16) : Char :=
  if (n : Nat) < 10 then Char.ofNat (48 + (n : Nat)) else Char.ofNat (87 + (n : Nat))

/-- The uppercase character of a hex digit (0-9, A-F). -/
def hexUpperChar (n : Fin 16) : Char :=
  if (n : Nat) < 10 then Char.ofNat (48 + (n : Nat)) else Char.ofNat (55 + (n : Nat))

/-- The canonical (normalized) rendering of a MAC token sequence:
lowercase hex digits, colon separators. -/
def canonicalMac (toks : List MacTok) : List Char :=
  toks.map fun t =>
    match t with
    | MacTok.digit n => hexLowerChar n
    | MacTok.sep => ':'

/-- Whether a character renders a token when the separator character is
sc: a digit may appear in either case, a separator is sc itself. -/
def tokMatches (sc : Char) : MacTok → Char → Bool
  | MacTok.digit n, c => c = hexLowerChar n || c = hexUpperChar n
  | MacTok.sep, c => c = sc

/-- Whether the string s is a rendering of the MAC token sequence toks
with separator character sc (each digit in either case). -/
def rendersMac (toks : List MacTok) (sc : Char) (s : List Char) : Bool :=
  toks.length = s.length &&
  (toks.zip s).all fun tc => tokMatches sc tc.1 tc.2

/-- The per-character action of normalize_mac after stripping: lowercase,
then dash to colon, then dot to colon. -/
def normChar (c : Char) : Char :=
  let c1 := pyLower c
  let c2 := if c1 = '-' then ':' else c1
  if c2 = '.' then ':' else c2

/-- The canonical character of a MAC token. -/
def canonChar : MacTok → Char
  | MacTok.digit n => hexLowerChar n
  | MacTok.sep => ':'

/-- A rogue-AP record as the monitoring service reads it: the rssi field
may be absent, and a payload stands for the remaining fields. -/
structure RogueRecord where
  rssi : Option Int
  payload : Nat
deriving DecidableEq, Repr

/-- The sort key of monitoring_service.py line 285: x.get("rssi", -100). -/
def rogueKey (r : RogueRecord) : Int :=
  r.rssi.getD (-100)

/-- Python sorted(rogue_aps, key=rssi-key, reverse=True): a stable sort
placing stronger signals first.  Stable sorting is uniquely determined
by the input order and the key comparison, so the stable insertionSort
is the faithful model. -/
def pySortedByRssiDesc (l : List RogueRecord) : List RogueRecord :=
  List.insertionSort (fun a b => rogueKey b ≤ rogueKey a) l

/-- Python int truthiness for the expression (x or d) on an optional
limit: None and 0 fall back to the default. -/
def pyOrInt : Option Int → Int → Int
  | some x, d => if x = 0 then d else x
  | none, d => d

/-- What _get_rogue_aps produces besides per-entry formatting,
monitoring_service.py lines 262-296: whether a summary header entry is
prepended, and the selected rogue-AP entries. -/
structure RogueOutput where
  summary_included : Bool
  entries : List RogueRecord
deriving DecidableEq, Repr

/-- Embedding of the selection logic of _get_rogue_aps,
monitoring_service.py lines 265-296: the effective limit is the caller
limit (via Python or-falsiness) or the per-action default 20, hard-capped
at 50; the records are stably sorted by rssi descending (absent rssi
counting as -100) and the first limit entries are kept; a summary header
is added exactly when the full list was longer than the limit. -/
def get_rogue_aps_result (records : List RogueRecord) (paramLimit : Option Int) :
    RogueOutput :=
  let limit0 := pyOrInt paramLimit ((action_default_limit UnifiAction.GET_ROGUE_APS).getD 20)
  let limit := min limit0 50
  let filtered := (pySortedByRssiDesc records).take limit.toNat
  { summary_included := (records.length : Int) > limit, entries := filtered }

/-- A client (station) record as the client service reads it: the
is_online field may be absent, and a payload stands for the remaining
fields. -/
structure StaRecord where
  is_online : Option Bool
  payload : Nat
deriving DecidableEq, Repr

/-- Resolution of the connected_only flag in _get_clients,
client_service.py line 61: the explicit parameter when present,
otherwise the per-action default (true for get_clients). -/
def resolve_connected_only (p : Option Bool) : Bool :=
  match p with
  | some b => b
  | none => (action_default_connected_only UnifiAction.GET_CLIENTS).getD true

/-- The records _get_clients keeps (each then formatted, with per-item
formatting failures replaced by an error stand-in but still appended),
client_service.py lines 73-88: a record is skipped exactly when
connected_only holds and its is_online field, defaulted to True when
absent, is false. -/
def get_clients_kept (connected_only : Bool) (records : List StaRecord) :
    List StaRecord :=
  records.filter fun r => !(connected_only && !(r.is_online.getD true))

/-- Concrete UDM-Pro-mode configuration used in witnesses. -/
def cfgU : UniFiConfig :=
  { controller_url := "https://192.168.1.1", username := "admin",
    password := "pw", verify_ssl := false, is_udm_pro := true }

/-- Concrete legacy-mode configuration used in witnesses. -/
def cfgL : UniFiConfig :=
  { controller_url := "https://192.168.1.1", username := "admin",
    password := "pw", verify_ssl := false, is_udm_pro := false }

/-- Concrete authenticated client state with a live session. -/
def stAuthed : ClientState :=
  { session := true, is_authenticated := true, csrf_token := some "tok" }

/-- Concrete client state before connect(): no session. -/
def stNoSession : ClientState :=
  { session := false, is_authenticated := false, csrf_token := none }

/-- Concrete authenticate oracle: login succeeds and the JWT carries a
fresh csrf token. -/
def authOk : AuthOracle :=
  { postResult := Except.ok 200, csrfUpdate := some (some "newtok") }

/-- Concrete request oracle: first response 401, retry response 500. -/
def oRetry500 : RequestOracle :=
  { ensureAuth := authOk,
    first := Except.ok { status := 401, body := Except.ok Json.null },
    retryAuth := authOk,
    retry := Except.ok { status := 500, body := Except.ok Json.null } }

/-- Concrete request oracle: first response 200 with an enveloped body. -/
def oEnvelope : RequestOracle :=
  { ensureAuth := authOk,
    first := Except.ok
      { status := 200,
        body := Except.ok (Json.obj
          [("data", Json.arr [Json.num 1, Json.num 2, Json.num 3]),
           ("meta", Json.obj [("rc", Json.str "ok")])]) },
    retryAuth := authOk,
    retry := Except.ok { status := 200, body := Except.ok Json.null } }

/-- Concrete request oracle: first request raises a transport error. -/
def oTransportErr : RequestOracle :=
  { ensureAuth := authOk,
    first := Except.error "Connection refused",
    retryAuth := authOk,
    retry := Except.ok { status := 200, body := Except.ok Json.null } }

/-- Helper: authenticate never raises when a session exists; it either
returns false with the state unchanged, or true with a state that still
has a session and is authenticated. -/
theorem authenticate_ok (cfg : UniFiConfig) (st : ClientState) (o : AuthOracle)
    (h : st.session = true) :
    authenticate cfg st o = Except.ok (false, st) ∨
    ∃ st1, authenticate cfg st o = Except.ok (true, st1) ∧
      st1.session = true ∧ st1.is_authenticated = true ∧
      st1.csrf_token = (if cfg.is_udm_pro then (o.csrfUpdate.getD st.csrf_token)
                        else st.csrf_token) := by
  unfold authenticate
  rw [h]
  simp only [Bool.not_true, Bool.false_eq_true, if_false, ite_false]
  cases hp : o.postResult with
  | error e => left; rfl
  | ok status =>
    by_cases hs : status = 200
    · subst hs
      right
      cases hu : cfg.is_udm_pro with
      | false =>
        exact ⟨{ st with is_authenticated := true }, by simp, h, rfl, by simp [hu]⟩
      | true =>
        cases hc : o.csrfUpdate with
        | none =>
          exact ⟨{ st with is_authenticated := true }, by simp, h, rfl, by simp [hc]⟩
        | some v =>
          exact ⟨{ st with is_authenticated := true, csrf_token := v }, by simp [h], h, rfl,
            by simp [hc, h]⟩
    · left
      simp [hs]

/-- Helper: when a session exists, the value a request attempt returns is
exactly request_result of the two endpoint outcomes (in particular it is
never an Except.error, so no exception escapes the try block). -/
theorem attempt_result_eq (cfg : UniFiConfig) (st1 : ClientState)
    (method endpoint site_name : String)
    (data : Option Json) (params : Option (List (String × Json)))
    (first : Except String HttpResp) (retryAuth : AuthOracle)
    (retry : Except String HttpResp) (h : st1.session = true) :
    (request_attempt cfg st1 method endpoint site_name data params
        first retryAuth retry).result = Except.ok (request_result first retry) := by
  unfold request_attempt request_result
  rw [h]
  simp only [Bool.not_true, Bool.false_eq_true, if_false, ite_false]
  cases first with
  | error e => rfl
  | ok resp =>
    by_cases h401 : resp.status = 401
    · simp only [h401, if_true, ite_true, if_pos]
      rcases authenticate_ok cfg
          { session := true, is_authenticated := false, csrf_token := st1.csrf_token }
          retryAuth rfl with hA | ⟨st3, hA, _, _, _⟩ <;>
      · rw [hA]
        cases retry with
        | error e => simp
        | ok r2 =>
          by_cases h2 : r2.status = 200
          · cases hb : r2.body with
            | error e => simp [h2, hb]
            | ok j => simp [h2, hb]
          · simp [h2]
    · by_cases h200 : resp.status = 200
      · cases hb : resp.body with
        | error e => simp [h401, h200, hb]
        | ok j => simp [h401, h200, hb]
      · simp [h401, h200]

/-- Helper: on a 401 first response with a live session, the attempt trace
is one endpoint request, one authenticate call, and one identical
endpoint request, with both requests carrying the headers built from the
pre-retry csrf token. -/
theorem attempt_events_401 (cfg : UniFiConfig) (st1 : ClientState)
    (method endpoint site_name : String)
    (data : Option Json) (params : Option (List (String × Json)))
    (resp : HttpResp) (retryAuth : AuthOracle)
    (retry : Except String HttpResp)
    (h : st1.session = true) (h401 : resp.status = 401) :
    (request_attempt cfg st1 method endpoint site_name data params
        (Except.ok resp) retryAuth retry).events =
      [Event.httpRequest
        { method := method, url := build_url cfg site_name endpoint,
          body := data, query := params,
          headers := build_headers cfg st1.csrf_token },
       Event.authCall,
       Event.httpRequest
        { method := method, url := build_url cfg site_name endpoint,
          body := data, query := params,
          headers := build_headers cfg st1.csrf_token }] := by
  unfold request_attempt
  rw [h]
  simp only [Bool.not_true, Bool.false_eq_true, if_false, ite_false]
  rcases authenticate_ok cfg
      { session := true, is_authenticated := false, csrf_token := st1.csrf_token }
      retryAuth rfl with hA | ⟨st3, hA, _, _, _⟩ <;>
  · cases retry with
    | error e => simp [h401, hA]
    | ok r2 =>
      by_cases h2 : r2.status = 200
      · cases hb : r2.body with
        | error e => simp [h401, hA, h2, hb]
        | ok j => simp [h401, hA, h2, hb]
      · simp [h401, hA, h2]

/-- Helper: on a non-401 first response with a live session, the attempt
trace is exactly one endpoint request. -/
theorem attempt_events_non401 (cfg : UniFiConfig) (st1 : ClientState)
    (method endpoint site_name : String)
    (data : Option Json) (params : Option (List (String × Json)))
    (resp : HttpResp) (retryAuth : AuthOracle)
    (retry : Except String HttpResp)
    (h : st1.session = true) (h401 : resp.status ≠ 401) :
    (request_attempt cfg st1 method endpoint site_name data params
        (Except.ok resp) retryAuth retry).events =
      [Event.httpRequest
        { method := method, url := build_url cfg site_name endpoint,
          body := data, query := params,
          headers := build_headers cfg st1.csrf_token }] := by
  unfold request_attempt
  rw [h]
  simp only [Bool.not_true, Bool.false_eq_true, if_false, ite_false]
  by_cases h200 : resp.status = 200
  · cases hb : resp.body with
    | error e => simp [h401, h200, hb]
    | ok j => simp [h401, h200, hb]
  · simp [h401, h200]

/-- Helper: on an already-authenticated state, ensure_authenticated is a
no-op and _make_request is exactly the request attempt. -/
theorem make_request_eq_of_authed (cfg : UniFiConfig) (st : ClientState)
    (method endpoint site_name : String)
    (data : Option Json) (params : Option (List (String × Json)))
    (o : RequestOracle) (hauth : st.is_authenticated = true) :
    make_request cfg st method endpoint site_name data params o =
      request_attempt cfg st method endpoint site_name data params
        o.first o.retryAuth o.retry := by
  unfold make_request
  rw [hauth]
  simp

/-- Helper: whenever a session exists, the value _make_request returns is
Except.ok of request_result of the two endpoint outcomes (never an
escaping exception). -/
theorem make_request_result_eq (cfg : UniFiConfig) (st : ClientState)
    (method endpoint site_name : String)
    (data : Option Json) (params : Option (List (String × Json)))
    (o : RequestOracle) (hsess : st.session = true) :
    (make_request cfg st method endpoint site_name data params o).result =
      Except.ok (request_result o.first o.retry) := by
  by_cases hIA : st.is_authenticated = true
  · rw [make_request_eq_of_authed cfg st method endpoint site_name data params o hIA]
    exact attempt_result_eq cfg st method endpoint site_name data params
      o.first o.retryAuth o.retry hsess
  · unfold make_request
    have hIA2 : st.is_authenticated = false := by
      cases hb : st.is_authenticated
      · rfl
      · exact absurd hb hIA
    rw [hIA2]
    simp only [Bool.false_eq_true, if_false, ite_false]
    rcases authenticate_ok cfg st o.ensureAuth hsess with hA | ⟨st3, hA, h3s, _, _⟩
    · rw [hA]
      simpa using attempt_result_eq cfg st method endpoint site_name data params
        o.first o.retryAuth o.retry hsess
    · rw [hA]
      simpa using attempt_result_eq cfg st3 method endpoint site_name data params
        o.first o.retryAuth o.retry h3s

/-- C1: for a _make_request call on an authenticated client with a live
session: if the first HTTP response has status 401, the event trace is
exactly one endpoint request, one authenticate call (after
is_authenticated was reset), and one re-issued identical endpoint
request — two HTTP requests and one additional authenticate call — and
if the retry status is not 200 the returned value is the dict
error -> "Request failed with status <code>"; if the first response has
any non-200 status other than 401, exactly one HTTP request is made and
the status error payload is returned immediately with no retry. -/
theorem make_request_retry_semantics
    (cfg : UniFiConfig) (st : ClientState)
    (method endpoint site_name : String)
    (data : Option Json) (params : Option (List (String × Json)))
    (o : RequestOracle)
    (hauth : st.is_authenticated = true) (hsess : st.session = true) :
    (∀ resp, o.first = Except.ok resp → resp.status = 401 →
      (∃ c : HttpCall,
        (make_request cfg st method endpoint site_name data params o).events
          = [Event.httpRequest c, Event.authCall, Event.httpRequest c]) ∧
      (∀ r2, o.retry = Except.ok r2 → r2.status ≠ 200 →
        (make_request cfg st method endpoint site_name data params o).result
          = Except.ok (errorDict ("Request failed with status " ++ toString r2.status)))) ∧
    (∀ resp, o.first = Except.ok resp → resp.status ≠ 401 → resp.status ≠ 200 →
      (make_request cfg st method endpoint site_name data params o).events
        = [Event.httpRequest
            { method := method, url := build_url cfg site_name endpoint,
              body := data, query := params,
              headers := build_headers cfg st.csrf_token }] ∧
      (make_request cfg st method endpoint site_name data params o).result
        = Except.ok (errorDict ("Request failed with status " ++ toString resp.status))) := by
  constructor
  · intro resp hfirst h401
    constructor
    · refine ⟨{ method := method, url := build_url cfg site_name endpoint,
                body := data, query := params,
                headers := build_headers cfg st.csrf_token }, ?_⟩
      rw [make_request_eq_of_authed cfg st method endpoint site_name data params o hauth,
          hfirst]
      exact attempt_events_401 cfg st method endpoint site_name data params resp
        o.retryAuth o.retry hsess h401
    · intro r2 hr h2
      rw [make_request_result_eq cfg st method endpoint site_name data params o hsess]
      simp [request_result, hfirst, hr, h401, h2]
  · intro resp hfirst h401 h200
    constructor
    · rw [make_request_eq_of_authed cfg st method endpoint site_name data params o hauth,
          hfirst]
      exact attempt_events_non401 cfg st method endpoint site_name data params resp
        o.retryAuth o.retry hsess h401
    · rw [make_request_result_eq cfg st method endpoint site_name data params o hsess]
      simp [request_result, hfirst, h401, h200]

/-- Witness for C1 at concrete inputs: authenticated UDM Pro client, first
response 401, retry response 500. -/
theorem make_request_retry_semantics_witness :
    (∃ c : HttpCall,
      (make_request cfgU stAuthed "GET" "/stat/device" "default" none none oRetry500).events
        = [Event.httpRequest c, Event.authCall, Event.httpRequest c]) ∧
    (make_request cfgU stAuthed "GET" "/stat/device" "default" none none oRetry500).result
      = Except.ok (errorDict "Request failed with status 500") := by
  have h := make_request_retry_semantics cfgU stAuthed "GET" "/stat/device" "default"
    none none oRetry500 rfl rfl
  exact ⟨(h.1 { status := 401, body := Except.ok Json.null } rfl rfl).1,
         (h.1 { status := 401, body := Except.ok Json.null } rfl rfl).2
           { status := 500, body := Except.ok Json.null } rfl (by decide)⟩

/-- C9: when the first response is 401, the retry request is literally the
same HttpCall as the first request; in particular its headers are the
build_headers value computed from the csrf token held before the
re-authentication, whatever the re-authentication oracle does (a token
obtained or refreshed during re-authentication is not added), and the
trace contains the retry request for every re-authentication outcome,
including a failed (false-returning) one. -/
theorem make_request_retry_header_reuse
    (cfg : UniFiConfig) (st : ClientState)
    (method endpoint site_name : String)
    (data : Option Json) (params : Option (List (String × Json)))
    (o : RequestOracle)
    (hauth : st.is_authenticated = true) (hsess : st.session = true)
    (resp : HttpResp) (hfirst : o.first = Except.ok resp)
    (h401 : resp.status = 401) :
    ∃ c : HttpCall,
      (make_request cfg st method endpoint site_name data params o).events
        = [Event.httpRequest c, Event.authCall, Event.httpRequest c] ∧
      c.headers = build_headers cfg st.csrf_token ∧
      c.method = method ∧ c.url = build_url cfg site_name endpoint ∧
      c.body = data ∧ c.query = params := by
  refine ⟨{ method := method, url := build_url cfg site_name endpoint,
            body := data, query := params,
            headers := build_headers cfg st.csrf_token },
          ?_, rfl, rfl, rfl, rfl, rfl⟩
  rw [make_request_eq_of_authed cfg st method endpoint site_name data params o hauth,
      hfirst]
  exact attempt_events_401 cfg st method endpoint site_name data params resp
    o.retryAuth o.retry hsess h401

/-- Witness for C9 at concrete inputs: the re-authentication oracle stores
a fresh csrf token (newtok) and the retry still carries the headers built
from the old token. -/
theorem make_request_retry_header_reuse_witness :
    ∃ c : HttpCall,
      (make_request cfgU stAuthed "GET" "/stat/device" "default" none none oRetry500).events
        = [Event.httpRequest c, Event.authCall, Event.httpRequest c] ∧
      c.headers = build_headers cfgU (some "tok") ∧
      c.method = "GET" ∧ c.url = build_url cfgU "default" "/stat/device" ∧
      c.body = none ∧ c.query = none :=
  make_request_retry_header_reuse cfgU stAuthed "GET" "/stat/device" "default"
    none none oRetry500 rfl rfl { status := 401, body := Except.ok Json.null } rfl rfl

/-- C2 counterexample: with a missing (None) session the request
operation does raise — the RuntimeError of authenticate() (client.py
line 66, reached through ensure_authenticated, outside the try block)
escapes _make_request instead of being returned as an error dict. -/
theorem make_request_none_session_raises :
    (make_request cfgU stNoSession "GET" "/stat/device" "default" none none oEnvelope).result
      = Except.error sessionErrMsg := rfl

/-- C2 amended: provided the HTTP session is initialized (not None),
_make_request never raises to its caller — it always returns a value —
and transport or parse exceptions of the HTTP layer are returned as the
dict error -> message: shown for the first-request transport exception,
for a parse exception of a 200 body, and for a transport exception of
the 401-triggered retry. -/
theorem make_request_no_raise_with_session
    (cfg : UniFiConfig) (st : ClientState)
    (method endpoint site_name : String)
    (data : Option Json) (params : Option (List (String × Json)))
    (o : RequestOracle) (hsess : st.session = true) :
    (∃ j, (make_request cfg st method endpoint site_name data params o).result
        = Except.ok j) ∧
    (∀ msg, o.first = Except.error msg →
      (make_request cfg st method endpoint site_name data params o).result
        = Except.ok (errorDict msg)) ∧
    (∀ resp msg, o.first = Except.ok resp → resp.status = 200 →
      resp.body = Except.error msg →
      (make_request cfg st method endpoint site_name data params o).result
        = Except.ok (errorDict msg)) ∧
    (∀ resp msg, o.first = Except.ok resp → resp.status = 401 →
      o.retry = Except.error msg →
      (make_request cfg st method endpoint site_name data params o).result
        = Except.ok (errorDict msg)) := by
  refine ⟨⟨request_result o.first o.retry,
      make_request_result_eq cfg st method endpoint site_name data params o hsess⟩,
    ?_, ?_, ?_⟩
  · intro msg hfirst
    rw [make_request_result_eq cfg st method endpoint site_name data params o hsess]
    simp [request_result, hfirst]
  · intro resp msg hfirst h200 hb
    rw [make_request_result_eq cfg st method endpoint site_name data params o hsess]
    simp [request_result, hfirst, h200, hb]
  · intro resp msg hfirst h401 hr
    rw [make_request_result_eq cfg st method endpoint site_name data params o hsess]
    simp [request_result, hfirst, h401, hr]

/-- Witness for the amended C2 at concrete inputs: a transport exception
on the first request of an authenticated client becomes an error dict. -/
theorem make_request_no_raise_with_session_witness :
    (∃ j, (make_request cfgU stAuthed "GET" "/stat/device" "default" none none oTransportErr).result
        = Except.ok j) ∧
    (make_request cfgU stAuthed "GET" "/stat/device" "default" none none oTransportErr).result
      = Except.ok (errorDict "Connection refused") := by
  have h := make_request_no_raise_with_session cfgU stAuthed "GET" "/stat/device"
    "default" none none oTransportErr rfl
  exact ⟨h.1, h.2.1 "Connection refused" rfl⟩

/-- C5: on a successful (HTTP 200) response, _make_request returns the
value of the data key when the parsed body is a dict containing one, and
the parsed body unchanged otherwise. -/
theorem make_request_unwraps_envelope
    (cfg : UniFiConfig) (st : ClientState)
    (method endpoint site_name : String)
    (data : Option Json) (params : Option (List (String × Json)))
    (o : RequestOracle) (hsess : st.session = true) :
    (∀ resp kvs v, o.first = Except.ok resp → resp.status = 200 →
      resp.body = Except.ok (Json.obj kvs) → kvs.lookup "data" = some v →
      (make_request cfg st method endpoint site_name data params o).result
        = Except.ok v) ∧
    (∀ resp j, o.first = Except.ok resp → resp.status = 200 →
      resp.body = Except.ok j → j.getKey "data" = none →
      (make_request cfg st method endpoint site_name data params o).result
        = Except.ok j) := by
  constructor
  · intro resp kvs v hfirst h200 hb hlookup
    rw [make_request_result_eq cfg st method endpoint site_name data params o hsess]
    simp [request_result, hfirst, h200, hb, unwrapEnvelope, Json.getKey, hlookup]
  · intro resp j hfirst h200 hb hnone
    rw [make_request_result_eq cfg st method endpoint site_name data params o hsess]
    simp [request_result, hfirst, h200, hb, unwrapEnvelope, hnone]

/-- Witness for C5 at concrete inputs: the enveloped body
data -> [1,2,3], meta -> (rc -> ok) yields [1,2,3]; a body without a
data key is returned unchanged. -/
theorem make_request_unwraps_envelope_witness :
    (make_request cfgU stAuthed "GET" "/stat/device" "default" none none oEnvelope).result
      = Except.ok (Json.arr [Json.num 1, Json.num 2, Json.num 3]) ∧
    (make_request cfgU stAuthed "GET" "/stat/device" "default" none none
        (RequestOracle.mk authOk
          (Except.ok (HttpResp.mk 200 (Except.ok (Json.obj [("meta", Json.str "ok")]))))
          authOk
          (Except.ok (HttpResp.mk 200 (Except.ok Json.null))))).result
      = Except.ok (Json.obj [("meta", Json.str "ok")]) := by
  constructor
  · exact (make_request_unwraps_envelope cfgU stAuthed "GET" "/stat/device" "default"
      none none oEnvelope rfl).1
      { status := 200,
        body := Except.ok (Json.obj
          [("data", Json.arr [Json.num 1, Json.num 2, Json.num 3]),
           ("meta", Json.obj [("rc", Json.str "ok")])]) }
      [("data", Json.arr [Json.num 1, Json.num 2, Json.num 3]),
       ("meta", Json.obj [("rc", Json.str "ok")])]
      (Json.arr [Json.num 1, Json.num 2, Json.num 3]) rfl rfl rfl rfl
  · exact (make_request_unwraps_envelope cfgU stAuthed "GET" "/stat/device" "default"
      none none
      (RequestOracle.mk authOk
        (Except.ok (HttpResp.mk 200 (Except.ok (Json.obj [("meta", Json.str "ok")]))))
        authOk
        (Except.ok (HttpResp.mk 200 (Except.ok Json.null)))) rfl).2
      (HttpResp.mk 200 (Except.ok (Json.obj [("meta", Json.str "ok")])))
      (Json.obj [("meta", Json.str "ok")]) rfl rfl rfl rfl

/-- C4 (divergence exhibit): for every configuration, a legacy client has
api_base /api and posts the credentials with remember true to
baseUrl/api/login, and a non-legacy client has api_base
/proxy/network/api and posts the credentials to baseUrl/api/auth/login —
but in BOTH modes the body is sent with the httpx json= keyword
(JSON-encoded), never form-encoded, contrary to the claim (and to the
form-data assertion of test_legacy_controller_authentication_success in
tests/test_client.py). -/
theorem login_request_shapes (cfg : UniFiConfig) :
    (cfg.is_udm_pro = false →
      api_base cfg = "/api" ∧
      login_request cfg =
        { url := cfg.controller_url ++ "/api/login",
          payload := [("username", Json.str cfg.username),
                      ("password", Json.str cfg.password),
                      ("remember", Json.bool true)],
          encoding := BodyEncoding.jsonBody } ∧
      (login_request cfg).encoding ≠ BodyEncoding.formBody) ∧
    (cfg.is_udm_pro = true →
      api_base cfg = "/proxy/network/api" ∧
      login_request cfg =
        { url := cfg.controller_url ++ "/api/auth/login",
          payload := [("username", Json.str cfg.username),
                      ("password", Json.str cfg.password)],
          encoding := BodyEncoding.jsonBody }) := by
  constructor
  · intro h
    have hbase : api_base cfg = "/api" := by simp [api_base, h]
    refine ⟨hbase, ?_, ?_⟩
    · unfold login_request
      rw [h, hbase]
      simp only [Bool.false_eq_true, if_false, ite_false]
      rw [String.append_assoc]
      rfl
    · unfold login_request
      rw [h]
      simp
  · intro h
    refine ⟨by simp [api_base, h], ?_⟩
    unfold login_request
    rw [h]
    simp

/-- Witness for C4 at concrete configurations (legacy and UDM Pro). -/
theorem login_request_shapes_witness :
    api_base cfgL = "/api" ∧
    login_request cfgL =
      { url := "https://192.168.1.1/api/login",
        payload := [("username", Json.str "admin"),
                    ("password", Json.str "pw"),
                    ("remember", Json.bool true)],
        encoding := BodyEncoding.jsonBody } ∧
    (login_request cfgL).encoding ≠ BodyEncoding.formBody ∧
    api_base cfgU = "/proxy/network/api" ∧
    login_request cfgU =
      { url := "https://192.168.1.1/api/auth/login",
        payload := [("username", Json.str "admin"),
                    ("password", Json.str "pw")],
        encoding := BodyEncoding.jsonBody } := by
  have hL := (login_request_shapes cfgL).1 rfl
  have hU := (login_request_shapes cfgU).2 rfl
  exact ⟨hL.1, hL.2.1, hL.2.2, hU.1, hU.2⟩

/-- C3 counterexample: the action enumeration does not contain 31 values —
allActions lists every enum member exactly once (it is duplicate-free and
complete) and has length 30, and the cardinality of the enum type is 30,
not 31. -/
theorem action_enum_has_30_values :
    allActions.Nodup ∧ (∀ a : UnifiAction, a ∈ allActions) ∧
    allActions.length = 30 ∧ Fintype.card UnifiAction = 30 ∧
    Fintype.card UnifiAction ≠ 31 := by
  refine ⟨by decide, by decide, by decide, by decide, by decide⟩

/-- C3 amended: the action enumeration contains exactly 30 values, and the
five membership sets (Device, Client, Network, Monitoring, Auth) are
pairwise disjoint with union the whole enumeration — every action lies in
exactly one of the five sets — so the routing chain of
UnifiService.execute_action selects exactly one handler for every action
value: the handler of the unique set containing it, never the
unknown-action branch. -/
theorem action_partition_routes_uniquely :
    Fintype.card UnifiAction = 30 ∧
    (∀ a : UnifiAction, membershipCount a = 1) ∧
    (∀ a : UnifiAction, route a ≠ Handler.unknownAction) ∧
    (∀ a : UnifiAction, (route a = Handler.device ↔ a ∈ DEVICE_ACTIONS)) ∧
    (∀ a : UnifiAction, (route a = Handler.clnt ↔ a ∈ CLIENT_ACTIONS)) ∧
    (∀ a : UnifiAction, (route a = Handler.network ↔ a ∈ NETWORK_ACTIONS)) ∧
    (∀ a : UnifiAction, (route a = Handler.monitoring ↔ a ∈ MONITORING_ACTIONS)) ∧
    (∀ a : UnifiAction, (route a = Handler.auth ↔ a ∈ AUTH_ACTIONS)) := by
  refine ⟨by decide, by decide, by decide, by decide, by decide, by decide,
    by decide, by decide⟩

/-- C7: for every action in the MAC-required set, constructing parameters
with mac absent or empty fails at construction time (the constructor is a
pure function, so no network activity can have occurred) with the error
message naming the action, and for every action outside that set,
construction with no mac (and every other optional field absent)
succeeds.  The final conjunct shows the failure message determines the
action uniquely. -/
theorem params_mac_validation (a : UnifiAction) :
    (a ∈ MAC_REQUIRED_ACTIONS →
      mk_unifi_params { action := a } =
        Except.error ("MAC address is required for action: " ++ actionStr a) ∧
      mk_unifi_params { action := a, mac := some "" } =
        Except.error ("MAC address is required for action: " ++ actionStr a)) ∧
    (a ∉ MAC_REQUIRED_ACTIONS →
      mk_unifi_params { action := a } = Except.ok { action := a }) ∧
    (∀ b : UnifiAction, actionStr a = actionStr b → a = b) := by
  refine ⟨?_, ?_, ?_⟩ <;> revert a <;> decide

/-- Witness for C7 at concrete actions: restart_device (in the
MAC-required set) fails without a mac with a message naming it, and
get_sites (outside the set) succeeds without a mac. -/
theorem params_mac_validation_witness :
    mk_unifi_params { action := UnifiAction.RESTART_DEVICE } =
      Except.error "MAC address is required for action: restart_device" ∧
    mk_unifi_params { action := UnifiAction.RESTART_DEVICE, mac := some "" } =
      Except.error "MAC address is required for action: restart_device" ∧
    mk_unifi_params { action := UnifiAction.GET_SITES } =
      Except.ok { action := UnifiAction.GET_SITES } := by
  have h1 := (params_mac_validation UnifiAction.RESTART_DEVICE).1 (by decide)
  have h2 := (params_mac_validation UnifiAction.GET_SITES).2.1 (by decide)
  exact ⟨h1.1, h1.2, h2⟩

/-- Helper: dropWhile is the identity on a list without whitespace. -/
theorem dropWhile_of_nospace (l : List Char) (h : ∀ c ∈ l, pyIsSpace c = false) :
    l.dropWhile pyIsSpace = l := by
  cases l with
  | nil => rfl
  | cons c cs =>
    rw [List.dropWhile_cons, h c (List.mem_cons_self c cs)]
    simp

/-- Helper: pyStrip is the identity on a list without whitespace. -/
theorem pyStrip_of_nospace (l : List Char) (h : ∀ c ∈ l, pyIsSpace c = false) :
    pyStrip l = l := by
  unfold pyStrip
  rw [dropWhile_of_nospace l h,
    dropWhile_of_nospace l.reverse (fun c hc => h c (List.mem_reverse.mp hc)),
    List.reverse_reverse]

/-- Helper: pyStrip removes exactly the whitespace surrounding a
whitespace-free core. -/
theorem pyStrip_concat (ws1 s ws2 : List Char)
    (h1 : ∀ c ∈ ws1, pyIsSpace c = true) (h2 : ∀ c ∈ ws2, pyIsSpace c = true)
    (hs : ∀ c ∈ s, pyIsSpace c = false) :
    pyStrip (ws1 ++ s ++ ws2) = s := by
  have hws1 : ws1.dropWhile pyIsSpace = [] := List.dropWhile_eq_nil_iff.mpr h1
  have hws2 : ws2.dropWhile pyIsSpace = [] := List.dropWhile_eq_nil_iff.mpr h2
  have hws2r : ws2.reverse.dropWhile pyIsSpace = [] :=
    List.dropWhile_eq_nil_iff.mpr (fun c hc => h2 c (List.mem_reverse.mp hc))
  unfold pyStrip
  cases s with
  | nil =>
    simp [List.dropWhile_append, hws1, hws2]
  | cons c cs =>
    have hcore : List.dropWhile pyIsSpace ((c :: cs) ++ ws2) = (c :: cs) ++ ws2 := by
      rw [List.cons_append, List.dropWhile_cons, hs c (List.mem_cons_self c cs)]
      simp
    have hfront : List.dropWhile pyIsSpace (ws1 ++ (c :: cs) ++ ws2) =
        (c :: cs) ++ ws2 := by
      rw [List.append_assoc, List.dropWhile_append, hws1]
      simpa using hcore
    rw [hfront, List.reverse_append, List.dropWhile_append, hws2r]
    simp only [List.isEmpty_nil, if_true, ite_true]
    rw [dropWhile_of_nospace (c :: cs).reverse
      (fun x hx => hs x (List.mem_reverse.mp hx)), List.reverse_reverse]

/-- Helper: normalize_mac is pyStrip followed by the per-character map. -/
theorem normalize_mac_eq_map (s : List Char) :
    normalize_mac s = (pyStrip s).map normChar := by
  unfold normalize_mac replaceChar
  rw [List.map_map, List.map_map]
  rfl

/-- Helper: normChar fixes lowercase hex digits. -/
theorem normChar_hexLower : ∀ n : Fin 16, normChar (hexLowerChar n) = hexLowerChar n := by
  decide

/-- Helper: normChar lowercases uppercase hex digits. -/
theorem normChar_hexUpper : ∀ n : Fin 16, normChar (hexUpperChar n) = hexLowerChar n := by
  decide

/-- Helper: hex digit characters are not whitespace. -/
theorem nospace_hexLower : ∀ n : Fin 16, pyIsSpace (hexLowerChar n) = false := by
  decide

/-- Helper: uppercase hex digit characters are not whitespace. -/
theorem nospace_hexUpper : ∀ n : Fin 16, pyIsSpace (hexUpperChar n) = false := by
  decide

/-- Helper: normChar sends each admissible separator to the colon. -/
theorem normChar_seps : normChar ':' = ':' ∧ normChar '-' = ':' ∧ normChar '.' = ':' := by
  decide

/-- Helper: the admissible separators are not whitespace. -/
theorem nospace_seps :
    pyIsSpace ':' = false ∧ pyIsSpace '-' = false ∧ pyIsSpace '.' = false := by
  decide

/-- Helper: a character rendering a token maps to the canonical character
of that token under normChar, and is never whitespace. -/
theorem tokMatches_normChar (sc : Char) (hsc : sc = ':' ∨ sc = '-' ∨ sc = '.')
    (t : MacTok) (c : Char) (h : tokMatches sc t c = true) :
    normChar c = canonChar t ∧ pyIsSpace c = false := by
  cases t with
  | digit n =>
    have hd : c = hexLowerChar n ∨ c = hexUpperChar n := by
      simpa [tokMatches] using h
    rcases hd with rfl | rfl
    · exact ⟨normChar_hexLower n, nospace_hexLower n⟩
    · exact ⟨normChar_hexUpper n, nospace_hexUpper n⟩
  | sep =>
    have hd : c = sc := by simpa [tokMatches] using h
    subst hd
    rcases hsc with rfl | rfl | rfl
    · exact ⟨normChar_seps.1, nospace_seps.1⟩
    · exact ⟨normChar_seps.2.1, nospace_seps.2.1⟩
    · exact ⟨normChar_seps.2.2, nospace_seps.2.2⟩

/-- Helper: canonicalMac is the map of canonChar. -/
theorem canonicalMac_eq_map (toks : List MacTok) :
    canonicalMac toks = toks.map canonChar := rfl

/-- Helper: a rendering of a token sequence maps under normChar to the
canonical rendering, and contains no whitespace. -/
theorem rendersMac_map (toks : List MacTok) (sc : Char) (s : List Char)
    (hsc : sc = ':' ∨ sc = '-' ∨ sc = '.') (h : rendersMac toks sc s = true) :
    s.map normChar = canonicalMac toks ∧ ∀ c ∈ s, pyIsSpace c = false := by
  induction toks generalizing s with
  | nil =>
    cases s with
    | nil => exact ⟨rfl, by simp⟩
    | cons c cs => simp [rendersMac] at h
  | cons t ts ih =>
    cases s with
    | nil => simp [rendersMac] at h
    | cons c cs =>
      simp only [rendersMac, List.length_cons, List.zip_cons_cons, List.all_cons,
        Bool.and_eq_true, decide_eq_true_eq] at h
      obtain ⟨hlen, hm, hall⟩ := h
      have hr : rendersMac ts sc cs = true := by
        simp only [rendersMac, Bool.and_eq_true, decide_eq_true_eq]
        exact ⟨Nat.succ_injective hlen, hall⟩
      obtain ⟨hmap, hsp⟩ := ih cs hr
      obtain ⟨hc, hcsp⟩ := tokMatches_normChar sc hsc t c hm
      refine ⟨?_, ?_⟩
      · rw [List.map_cons, hc, hmap, canonicalMac_eq_map, canonicalMac_eq_map,
          List.map_cons]
      · intro x hx
        rcases List.mem_cons.mp hx with rfl | hx2
        · exact hcsp
        · exact hsp x hx2

/-- C6: for every MAC written as a token sequence rendered with separator
colon, dash or dot, each hex digit in either case, and with any
surrounding whitespace, normalize_mac yields the canonical lowercase
colon-separated rendering — hence any two variants of the same address
normalize identically — and normalize_mac is idempotent: it maps the
canonical rendering to itself. -/
theorem normalize_mac_canonical (toks : List MacTok) (sc : Char)
    (s ws1 ws2 : List Char)
    (hsc : sc = ':' ∨ sc = '-' ∨ sc = '.')
    (hr : rendersMac toks sc s = true)
    (h1 : ∀ c ∈ ws1, pyIsSpace c = true) (h2 : ∀ c ∈ ws2, pyIsSpace c = true) :
    normalize_mac (ws1 ++ s ++ ws2) = canonicalMac toks ∧
    normalize_mac (canonicalMac toks) = canonicalMac toks := by
  obtain ⟨hmap, hsp⟩ := rendersMac_map toks sc s hsc hr
  constructor
  · rw [normalize_mac_eq_map, pyStrip_concat ws1 s ws2 h1 h2 hsp, hmap]
  · have hcs : ∀ c ∈ canonicalMac toks, pyIsSpace c = false := by
      intro c hc
      rw [canonicalMac_eq_map] at hc
      obtain ⟨t, _, rfl⟩ := List.mem_map.mp hc
      cases t with
      | digit n => exact nospace_hexLower n
      | sep => exact nospace_seps.1
    have hfix : ∀ c ∈ canonicalMac toks, normChar c = id c := by
      intro c hc
      rw [canonicalMac_eq_map] at hc
      obtain ⟨t, _, rfl⟩ := List.mem_map.mp hc
      cases t with
      | digit n => exact normChar_hexLower n
      | sep => exact normChar_seps.1
    rw [normalize_mac_eq_map, pyStrip_of_nospace _ hcs,
      List.map_congr_left hfix, List.map_id]

/-- Witness for C6 at a concrete address: the dash-separated, uppercase,
whitespace-surrounded rendering of aa:bb:cc:dd:ee:01 normalizes to the
canonical form, and normalizing the canonical form is a no-op. -/
theorem normalize_mac_canonical_witness :
    normalize_mac (" AA-BB-CC-DD-EE-01 ".toList) = "aa:bb:cc:dd:ee:01".toList ∧
    normalize_mac ("aa:bb:cc:dd:ee:01".toList) = "aa:bb:cc:dd:ee:01".toList :=
  normalize_mac_canonical
    [MacTok.digit 10, MacTok.digit 10, MacTok.sep,
     MacTok.digit 11, MacTok.digit 11, MacTok.sep,
     MacTok.digit 12, MacTok.digit 12, MacTok.sep,
     MacTok.digit 13, MacTok.digit 13, MacTok.sep,
     MacTok.digit 14, MacTok.digit 14, MacTok.sep,
     MacTok.digit 0, MacTok.digit 1]
    '-' "AA-BB-CC-DD-EE-01".toList [' '] [' ']
    (Or.inr (Or.inl rfl)) (by decide) (by decide) (by decide)

/-- C8: for every controller response list and every caller-requested
positive limit, the rogue-AP entries returned by _get_rogue_aps number at
most min(limit, 50) — the 50-entry hard cap applies however large the
requested limit is — they are sorted by rssi descending (an absent rssi
counting as -100), and they are the strongest-signal entries of the full
list: the remaining records all have rssi keys no larger than every
returned entry. -/
theorem get_rogue_aps_limit_and_sort (records : List RogueRecord) (l : Int)
    (hl : 0 < l) :
    (get_rogue_aps_result records (some l)).entries.length ≤ min l.toNat 50 ∧
    List.Sorted (fun a b => rogueKey b ≤ rogueKey a)
      (get_rogue_aps_result records (some l)).entries ∧
    ∃ rest,
      ((get_rogue_aps_result records (some l)).entries ++ rest).Perm records ∧
      ∀ y ∈ rest, ∀ x ∈ (get_rogue_aps_result records (some l)).entries,
        rogueKey y ≤ rogueKey x := by
  have hne : l ≠ 0 := by omega
  have hentry : (get_rogue_aps_result records (some l)).entries =
      (pySortedByRssiDesc records).take (min l 50).toNat := by
    simp [get_rogue_aps_result, pyOrInt, hne, action_default_limit]
  haveI htot : IsTotal RogueRecord (fun a b => rogueKey b ≤ rogueKey a) :=
    ⟨fun a b => le_total (rogueKey b) (rogueKey a)⟩
  haveI htr : IsTrans RogueRecord (fun a b => rogueKey b ≤ rogueKey a) :=
    ⟨fun _ _ _ hab hbc => le_trans hbc hab⟩
  have hsorted : List.Sorted (fun a b => rogueKey b ≤ rogueKey a)
      (pySortedByRssiDesc records) :=
    List.sorted_insertionSort (fun a b => rogueKey b ≤ rogueKey a) records
  refine ⟨?_, ?_, ?_⟩
  · rw [hentry]
    calc ((pySortedByRssiDesc records).take (min l 50).toNat).length
        ≤ (min l 50).toNat := by
          simp
      _ ≤ min l.toNat 50 := by omega
  · rw [hentry]
    exact List.Pairwise.sublist (List.take_sublist _ _) hsorted
  · refine ⟨(pySortedByRssiDesc records).drop (min l 50).toNat, ?_, ?_⟩
    · rw [hentry, List.take_append_drop]
      exact List.perm_insertionSort (fun a b => rogueKey b ≤ rogueKey a) records
    · intro y hy x hx
      rw [hentry] at hx
      have hall := (List.pairwise_append.mp
        (show List.Pairwise (fun a b => rogueKey b ≤ rogueKey a)
            ((pySortedByRssiDesc records).take (min l 50).toNat ++
             (pySortedByRssiDesc records).drop (min l 50).toNat) by
          rw [List.take_append_drop]
          exact hsorted)).2.2
      exact hall x hx y hy

/-- Witness for C8 at concrete inputs: three records, requested limit 2 —
the two strongest-signal entries are kept in descending rssi order. -/
theorem get_rogue_aps_limit_and_sort_witness :
    (get_rogue_aps_result
        [RogueRecord.mk (some (-70)) 0, RogueRecord.mk (some (-50)) 1,
         RogueRecord.mk none 2] (some 2)).entries
      = [RogueRecord.mk (some (-50)) 1, RogueRecord.mk (some (-70)) 0] ∧
    ((get_rogue_aps_result
        [RogueRecord.mk (some (-70)) 0, RogueRecord.mk (some (-50)) 1,
         RogueRecord.mk none 2] (some 2)).entries.length ≤ min (2 : Int).toNat 50 ∧
      List.Sorted (fun a b => rogueKey b ≤ rogueKey a)
        (get_rogue_aps_result
          [RogueRecord.mk (some (-70)) 0, RogueRecord.mk (some (-50)) 1,
           RogueRecord.mk none 2] (some 2)).entries ∧
      ∃ rest,
        ((get_rogue_aps_result
            [RogueRecord.mk (some (-70)) 0, RogueRecord.mk (some (-50)) 1,
             RogueRecord.mk none 2] (some 2)).entries ++ rest).Perm
          [RogueRecord.mk (some (-70)) 0, RogueRecord.mk (some (-50)) 1,
           RogueRecord.mk none 2] ∧
        ∀ y ∈ rest, ∀ x ∈ (get_rogue_aps_result
            [RogueRecord.mk (some (-70)) 0, RogueRecord.mk (some (-50)) 1,
             RogueRecord.mk none 2] (some 2)).entries,
          rogueKey y ≤ rogueKey x) := by
  constructor
  · decide
  · exact get_rogue_aps_limit_and_sort
      [RogueRecord.mk (some (-70)) 0, RogueRecord.mk (some (-50)) 1,
       RogueRecord.mk none 2] 2 (by decide)

/-- C10: in _get_clients with connected_only resolved to true (explicitly
passed or the per-action default), a record lacking the is_online field
is treated as online and kept, a record with is_online true is kept, and
the dropped records are exactly those whose is_online field is present
and false. -/
theorem get_clients_connected_only_filtering (records : List StaRecord)
    (p : Option Bool) (hp : resolve_connected_only p = true) :
    (∀ r ∈ records, r.is_online = none →
      r ∈ get_clients_kept (resolve_connected_only p) records) ∧
    (∀ r ∈ records, r.is_online = some true →
      r ∈ get_clients_kept (resolve_connected_only p) records) ∧
    (∀ r ∈ records, r ∉ get_clients_kept (resolve_connected_only p) records →
      r.is_online = some false) ∧
    (∀ r ∈ get_clients_kept (resolve_connected_only p) records,
      r.is_online ≠ some false) := by
  rw [hp]
  refine ⟨?_, ?_, ?_, ?_⟩
  · intro r hr hnone
    exact List.mem_filter.mpr ⟨hr, by simp [hnone]⟩
  · intro r hr htrue
    exact List.mem_filter.mpr ⟨hr, by simp [htrue]⟩
  · intro r hr hnot
    cases ho : r.is_online with
    | none => exact absurd (List.mem_filter.mpr ⟨hr, by simp [ho]⟩) hnot
    | some b =>
      cases b with
      | true => exact absurd (List.mem_filter.mpr ⟨hr, by simp [ho]⟩) hnot
      | false => rfl
  · intro r hr hfalse
    have := (List.mem_filter.mp hr).2
    rw [hfalse] at this
    simp at this

/-- Witness for C10 at concrete inputs: with connected_only left to its
default, the record without is_online and the online record are kept,
the offline record is dropped. -/
theorem get_clients_connected_only_filtering_witness :
    get_clients_kept (resolve_connected_only none)
        [StaRecord.mk none 0, StaRecord.mk (some true) 1, StaRecord.mk (some false) 2]
      = [StaRecord.mk none 0, StaRecord.mk (some true) 1] ∧
    (StaRecord.mk none 0) ∈ get_clients_kept (resolve_connected_only none)
        [StaRecord.mk none 0, StaRecord.mk (some true) 1, StaRecord.mk (some false) 2] := by
  constructor
  · decide
  · exact (get_clients_connected_only_filtering
      [StaRecord.mk none 0, StaRecord.mk (some true) 1, StaRecord.mk (some false) 2]
      none rfl).1 (StaRecord.mk none 0) (by decide) rfl
